/-
Verification development for the Throtl metrics core.

Shallow embedding of:
  src/throtl/collector/prometheus_parser.py   (text-format parser, histogram percentile)
  src/throtl/metrics.py                       (InferenceSnapshot)
  src/throtl/engine/comparison.py             (before/after comparison)
  src/throtl/engine/recommendations.py        (health-rule engine)
  src/throtl/engine/config_advisor.py         (config advisor)

Modelling conventions:
  - Python floats are modelled by the rationals; non-finite float literals
    (inf, nan) are outside the model, which matters nowhere in the claims.
  - Code paths on which the Python code can raise an exception are modelled
    with Option: a none result of such a function means the call raised.
  - Python string operations are re-implemented structurally over List Char
    so they mirror CPython slicing semantics exactly (including the find
    result -1 feeding a slice).
  - Python dicts are modelled as association lists with insertion order and
    value overwrite on key collision; list.sort and the sort method on
    lists are modelled by a stable insertion sort, which agrees with the
    stable Timsort used by CPython for every key function used here.
-/
import Mathlib

namespace Throtl

/-! ### Character and string utilities (CPython semantics) -/

/-- The opening curly brace character. -/
def lbraceC : Char := Char.ofNat 123

/-- The closing curly brace character. -/
def rbraceC : Char := Char.ofNat 125

/-- The double-quote character. -/
def quoteC : Char := Char.ofNat 34

/-- Whitespace class used by str.strip and str.split with no argument. -/
def isSpaceC (c : Char) : Bool :=
  c == ' ' || c == '\t' || c == '\n' || c == '\r' ||
  c == Char.ofNat 11 || c == Char.ofNat 12

/-- Python s.strip, on the character list of the string. -/
def pyStrip (l : List Char) : List Char :=
  ((l.dropWhile isSpaceC).reverse.dropWhile isSpaceC).reverse

/-- Python s.split(sep) for a one-character separator: keeps empty pieces. -/
def splitOnChar (c : Char) : List Char → List (List Char)
  | [] => [[]]
  | x :: r =>
    if x == c then [] :: splitOnChar c r
    else
      match splitOnChar c r with
      | h :: t => (x :: h) :: t
      | [] => [[x]]

/-- Splits at every character satisfying p, keeping empty pieces. -/
def splitOnPred (p : Char → Bool) : List Char → List (List Char)
  | [] => [[]]
  | x :: r =>
    if p x then [] :: splitOnPred p r
    else
      match splitOnPred p r with
      | h :: t => (x :: h) :: t
      | [] => [[x]]

/-- Python s.split() with no argument: whitespace runs separate tokens,
empty tokens are discarded. -/
def pyTokens (l : List Char) : List (List Char) :=
  (splitOnPred isSpaceC l).filter (fun t => !t.isEmpty)

/-- Python s.split(" ", 1): split on the first space only. -/
def pySplitOnce (l : List Char) : List (List Char) :=
  match l.findIdx? (fun c => c == ' ') with
  | none => [l]
  | some i => [l.take i, l.drop (i + 1)]

/-- Python s.startswith(pre). -/
def pyStartsWith (l pre : List Char) : Bool :=
  l.take pre.length == pre

/-- Python s.endswith(suf): the last suf.length characters equal suf. -/
def pyEndsWith (l suf : List Char) : Bool :=
  l.drop (l.length - suf.length) == suf

/-- Python s.find(c): index of the first occurrence, none models -1. -/
def pyFindChar (c : Char) : List Char → Option Nat
  | [] => none
  | x :: r => if x == c then some 0 else (pyFindChar c r).map (· + 1)

/-- Python s.find(c, start): first occurrence at index start or later. -/
def pyFindCharFrom (c : Char) (l : List Char) (start : Nat) : Option Nat :=
  (pyFindChar c (l.drop start)).map (· + start)

/-- Value of a digit run, most significant first. -/
def digitsVal (l : List Char) : Nat :=
  l.foldl (fun a c => 10 * a + (c.toNat - 48)) 0

/-- Model of Python float(s) restricted to finite decimal literals:
optional surrounding whitespace, optional sign, digits with an optional
fractional part, optional decimal exponent.  Returns none where float()
raises ValueError.  Non-finite literals (inf, nan) are not modelled since
values live in the rationals; no claim depends on them. -/
def pyFloat (s : String) : Option ℚ :=
  let cs0 := pyStrip s.toList
  let signNeg : Bool :=
    match cs0 with
    | '-' :: _ => true
    | _ => false
  let cs1 :=
    match cs0 with
    | '-' :: r => r
    | '+' :: r => r
    | r => r
  let ip := cs1.takeWhile Char.isDigit
  let cs2 := cs1.drop ip.length
  let fp :=
    match cs2 with
    | '.' :: r => r.takeWhile Char.isDigit
    | _ => []
  let cs3 :=
    match cs2 with
    | '.' :: r => r.drop fp.length
    | r => r
  if ip.isEmpty && fp.isEmpty then none
  else
    let mant : ℚ :=
      if fp.isEmpty then (digitsVal ip : ℚ)
      else ((digitsVal ip * 10 ^ fp.length + digitsVal fp : ℕ) : ℚ) / (10 ^ fp.length : ℕ)
    let signed : ℚ := if signNeg then -mant else mant
    match cs3 with
    | [] => some signed
    | 'e' :: r =>
      let eNeg : Bool := match r with | '-' :: _ => true | _ => false
      let r2 := match r with | '-' :: q => q | '+' :: q => q | q => q
      let ed := r2.takeWhile Char.isDigit
      if ed.isEmpty || ed.length != r2.length then none
      else if eNeg then some (signed / ((10 : ℚ) ^ digitsVal ed))
      else some (signed * ((10 : ℚ) ^ digitsVal ed))
    | 'E' :: r =>
      let eNeg : Bool := match r with | '-' :: _ => true | _ => false
      let r2 := match r with | '-' :: q => q | '+' :: q => q | q => q
      let ed := r2.takeWhile Char.isDigit
      if ed.isEmpty || ed.length != r2.length then none
      else if eNeg then some (signed / ((10 : ℚ) ^ digitsVal ed))
      else some (signed * ((10 : ℚ) ^ digitsVal ed))
    | _ => none

/-! ### Association-list model of Python dict -/

/-- dict insertion: overwrite the value if the key exists (keeping its
position), otherwise append.  Models building a dict pair by pair. -/
def dictInsert (m : List (String × String)) (kv : String × String) :
    List (String × String) :=
  if m.any (fun p => p.1 == kv.1) then
    m.map (fun p => if p.1 == kv.1 then (p.1, kv.2) else p)
  else m ++ [kv]

/-- dict(pairs): left-to-right insertion with overwrite. -/
def dictOfPairs (l : List (String × String)) : List (String × String) :=
  l.foldl dictInsert []

/-- dict.get(k): value at the key, if present. -/
def dictGet (m : List (String × String)) (k : String) : Option String :=
  (m.find? (fun p => p.1 == k)).map (fun p => p.2)

/-! ### Label regex  (prometheus_parser.py lines 28-35)

Model of _LABEL_RE.findall: the regex (\w+)="([^"]*)" scanned left to
right.  Because \w+ is greedy and a shortened word run is still followed
by a word character (never by the equals sign), backtracking inside \w+
can never produce a match, so the scan below is equivalent: at each
position try (maximal word run)="(body up to the next quote)", emitting a
pair and resuming after the match on success, else advance one character. -/

/-- Regex word character, ASCII subset of Python \w. -/
def wordChar (c : Char) : Bool := c.isAlphanum || c == '_'

/-- The findall scan; fuel is an upper bound on steps, each step consumes
at least one character, so fuel = length never runs out. -/
def findallLabelsAux : Nat → List Char → List (String × String)
  | 0, _ => []
  | _ + 1, [] => []
  | fuel + 1, c :: rest =>
    if wordChar c then
      let run := (c :: rest).takeWhile wordChar
      let after := (c :: rest).drop run.length
      match after with
      | '=' :: q :: rest2 =>
        if q == quoteC then
          let body := rest2.takeWhile (fun d => d != quoteC)
          let rem := rest2.drop body.length
          match rem with
          | q2 :: rest3 =>
            if q2 == quoteC then
              (String.mk run, String.mk body) :: findallLabelsAux fuel rest3
            else findallLabelsAux fuel rest
          | [] => findallLabelsAux fuel rest
        else findallLabelsAux fuel rest
      | _ => findallLabelsAux fuel rest
    else findallLabelsAux fuel rest

/-- parse_labels (prometheus_parser.py lines 32-35). -/
def parseLabels (s : String) : List (String × String) :=
  dictOfPairs (findallLabelsAux (s.toList.length + 1) s.toList)

/-! ### Data model (prometheus_parser.py lines 13-25) -/

/-- MetricSample dataclass. -/
structure MetricSample where
  name : String
  labels : List (String × String)
  value : ℚ
deriving DecidableEq, Repr

/-- MetricFamily dataclass; metric_type is one of gauge, counter,
histogram, summary, untyped. -/
structure MetricFamily where
  name : String
  metric_type : String
  help_text : String
  samples : List MetricSample
deriving DecidableEq, Repr

/-- The families mapping returned by the parser, keyed by base name.
Insertion order is kept, keys are unique. -/
abbrev FamilyMap := List (String × MetricFamily)

/-- Lookup in a family map (dict get). -/
def famGet (families : FamilyMap) (name : String) : Option MetricFamily :=
  (families.find? (fun p => p.1 == name)).map (fun p => p.2)

/-! ### Base-name computation (prometheus_parser.py lines 89-93)

The source iterates over the tuple ("_total", "_bucket", "_sum",
"_count", "_created") and strips the first suffix that matches, breaking
out of the loop; the if chain below is that loop unrolled. -/

/-- Base family name: strip the first matching suffix in priority order. -/
def baseName (name : String) : String :=
  let cs := name.toList
  if pyEndsWith cs "_total".toList then String.mk (cs.take (cs.length - 6))
  else if pyEndsWith cs "_bucket".toList then String.mk (cs.take (cs.length - 7))
  else if pyEndsWith cs "_sum".toList then String.mk (cs.take (cs.length - 4))
  else if pyEndsWith cs "_count".toList then String.mk (cs.take (cs.length - 6))
  else if pyEndsWith cs "_created".toList then String.mk (cs.take (cs.length - 8))
  else name

/-! ### The parser (prometheus_parser.py lines 38-106)

parse_prometheus_text processes the stripped text line by line.  The
single point where the Python code can raise is the expression
line[brace_end + 1:].strip().split()[0]: when the part of the line after
the first closing brace is empty or whitespace, split() returns the empty
list and the [0] subscript raises IndexError, which propagates out of the
function.  That raise is modelled by a none result. -/

/-- Parser fold state: the families map plus the TYPE and HELP
directives seen so far. -/
structure ParseState where
  families : FamilyMap
  typeMap : List (String × String)
  helpMap : List (String × String)

/-- Initial parser state. -/
def initParseState : ParseState := ⟨[], [], []⟩

/-- Append one accepted sample line (prometheus_parser.py lines 81-104):
parse the value (ValueError skips the line), parse labels, compute the
base name, create the family lazily with the recorded type/help, and
append the sample in arrival order. -/
def addSample (st : ParseState) (name labelStr valueStr : String) : ParseState :=
  match pyFloat valueStr with
  | none => st
  | some value =>
    let labels := parseLabels labelStr
    let base := baseName name
    let fams :=
      if (st.families.find? (fun p => p.1 == base)).isSome then st.families
      else
        st.families ++ [(base,
          { name := base
            metric_type := (dictGet st.typeMap base).getD "untyped"
            help_text := (dictGet st.helpMap base).getD ""
            samples := [] })]
    { st with
      families := fams.map (fun p =>
        if p.1 == base then
          (p.1, { p.2 with samples := p.2.samples ++ [⟨name, labels, value⟩] })
        else p) }

/-- Process one raw line (prometheus_parser.py lines 44-104).  A none
result models the IndexError raise described above. -/
def processLine (st : ParseState) (rawLine : List Char) : Option ParseState :=
  let line := pyStrip rawLine
  if line.isEmpty then some st
  else if pyStartsWith line "# HELP ".toList then
    match pySplitOnce (line.drop 7) with
    | [a, b] => some { st with helpMap := dictInsert st.helpMap (String.mk a, String.mk b) }
    | _ => some st
  else if pyStartsWith line "# TYPE ".toList then
    match pySplitOnce (line.drop 7) with
    | [a, b] => some { st with typeMap := dictInsert st.typeMap (String.mk a, String.mk b) }
    | _ => some st
  else if pyStartsWith line "#".toList then some st
  else
    match pyFindChar lbraceC line with
    | some braceStart =>
      let name := String.mk (line.take braceStart)
      let braceEnd := pyFindCharFrom rbraceC line braceStart
      -- label_str = line[brace_start+1 : brace_end]; a find result of -1
      -- makes the slice end at -1, i.e. drop the final character.
      let labelStr :=
        match braceEnd with
        | some e => String.mk ((line.take e).drop (braceStart + 1))
        | none => String.mk (line.dropLast.drop (braceStart + 1))
      -- value_str = line[brace_end+1:].strip().split()[0]; with a find
      -- result of -1 the slice line[0:] is the whole line.
      let afterChars :=
        match braceEnd with
        | some e => line.drop (e + 1)
        | none => line
      match pyTokens (pyStrip afterChars) with
      | [] => none  -- IndexError from the [0] subscript: the call raises
      | v :: _ => some (addSample st name labelStr (String.mk v))
    | none =>
      match pyTokens line with
      | n :: v :: _ => some (addSample st (String.mk n) "" (String.mk v))
      | _ => some st  -- fewer than two tokens: skip the line

/-- Left fold over the lines; a raise on any line aborts the whole call. -/
def foldLines : ParseState → List (List Char) → Option ParseState
  | st, [] => some st
  | st, l :: rest =>
    match processLine st l with
    | none => none
    | some st2 => foldLines st2 rest

/-- parse_prometheus_text (prometheus_parser.py lines 38-106).  A none
result models an uncaught exception escaping the function. -/
def parsePrometheusText (text : String) : Option FamilyMap :=
  (foldLines initParseState (splitOnChar '\n' (pyStrip text.toList))).map
    (fun st => st.families)

/-! ### Histogram percentile (prometheus_parser.py lines 126-175) -/

/-- One step of the sample scan in get_histogram_percentile (lines
144-155): finite _bucket samples are collected as (boundary, cumulative
count) pairs, a _bucket sample with le="+Inf" sets the total count, and a
sample named with the _count suffix also sets the total count.  The
accumulator is (buckets so far, total count so far). -/
def scanStep (acc : List (ℚ × ℚ) × Option ℚ) (s : MetricSample) :
    List (ℚ × ℚ) × Option ℚ :=
  if pyEndsWith s.name.toList "_bucket".toList then
    match dictGet s.labels "le" with
    | some le =>
      if le != "+Inf" then
        match pyFloat le with
        | some b => (acc.1 ++ [(b, s.value)], acc.2)
        | none => acc  -- ValueError on float(le): skip this sample
      else (acc.1, some s.value)
    | none => acc
  else if pyEndsWith s.name.toList "_count".toList then (acc.1, some s.value)
  else acc

/-- The full sample scan, in arrival order. -/
def scanHist (samples : List MetricSample) : List (ℚ × ℚ) × Option ℚ :=
  samples.foldl scanStep ([], none)

/-- The bucket walk (lines 163-172): first bucket whose cumulative count
reaches the target wins, with linear interpolation inside it; none means
the walk fell past every bucket. -/
def interpWalk (target : ℚ) : ℚ → ℚ → List (ℚ × ℚ) → Option ℚ
  | _, _, [] => none
  | prevBound, prevCount, (bound, count) :: rest =>
    if target ≤ count then
      some (prevBound + ((target - prevCount) / max 1 (count - prevCount)) * (bound - prevBound))
    else interpWalk target bound count rest

/-- The walk plus the fall-through return of the last (largest) boundary
(line 175; the bucket list is non-empty whenever this is reached). -/
def bucketQuantile (sorted : List (ℚ × ℚ)) (target : ℚ) : Option ℚ :=
  match interpWalk target 0 0 sorted with
  | some v => some v
  | none => (sorted.getLast?).map Prod.fst

/-- Stable insertion keyed by key: the new element goes before the first
existing element whose key is not smaller.  Together with isortK this is
a stable sort, the behaviour CPython guarantees for list.sort. -/
def insertK {α β : Type} [LinearOrder β] (key : α → β) (x : α) :
    List α → List α
  | [] => [x]
  | y :: l => if key y < key x then y :: insertK key x l else x :: y :: l

/-- Stable insertion sort by key, modelling list.sort(key=...). -/
def isortK {α β : Type} [LinearOrder β] (key : α → β) : List α → List α
  | [] => []
  | x :: l => insertK key x (isortK key l)

/-- get_histogram_percentile (lines 126-175).  The outer none covers a
missing family, no finite buckets, and a missing or zero total count; the
order of those emptiness tests is immaterial. -/
def getHistogramPercentile (families : FamilyMap) (name : String)
    (percentile : ℚ) : Option ℚ :=
  match famGet families name with
  | none => none
  | some family =>
    match scanHist family.samples with
    | (buckets, totalOpt) =>
      match totalOpt with
      | none => none
      | some total =>
        if buckets = [] ∨ total = 0 then none
        else bucketQuantile (isortK Prod.fst buckets) (percentile * total)

/-! ### InferenceSnapshot (metrics.py lines 12-47)

Exactly the fields the dataclass declares; the datetime timestamp is
modelled as an integer tick, no claim inspects it.  Note that the
dataclass does NOT declare cumulative_cost_usd, sla_compliance_percent,
gpu_cost_per_hour or sla_target_ttft_ms, although comparison.py, the
sqlite store, the mock generator and the test suite all assume them. -/

structure InferenceSnapshot where
  timestamp : Int
  requests_running : Int
  requests_waiting : Int
  requests_completed : Int
  prompt_tokens_total : Int
  generation_tokens_total : Int
  tokens_per_second : ℚ
  time_to_first_token_p50 : ℚ
  time_to_first_token_p95 : ℚ
  time_to_first_token_p99 : ℚ
  time_per_output_token_p50 : ℚ
  time_per_output_token_p95 : ℚ
  time_per_output_token_p99 : ℚ
  gpu_cache_usage_percent : ℚ
  gpu_memory_used_gb : ℚ
  gpu_memory_total_gb : ℚ
  gpu_utilization_percent : ℚ
  avg_batch_size : ℚ
  max_batch_size : Int
  estimated_cost_per_1k_tokens : ℚ
deriving DecidableEq, Repr

/-- A snapshot with every metric field at its dataclass default (zero). -/
def snapZero : InferenceSnapshot :=
  ⟨0, 0, 0, 0, 0, 0, 0, 0, 0, 0, 0, 0, 0, 0, 0, 0, 0, 0, 0, 0⟩

/-! ### Comparison engine (comparison.py) -/

/-- MetricDelta dataclass (comparison.py lines 19-26). -/
structure MetricDelta where
  name : String
  before : ℚ
  after : ℚ
  delta : ℚ
  delta_pct : ℚ
  improved : Option Bool
deriving DecidableEq, Repr

/-- ComparisonReport dataclass (comparison.py lines 29-42). -/
structure ComparisonReport where
  before_count : Nat
  after_count : Nat
  deltas : List MetricDelta
  summary : String
deriving DecidableEq, Repr

/-- The fixed metric table _METRICS (comparison.py lines 46-60):
attribute name, display name, and whether lower is better. -/
def METRICS : List (String × String × Bool) :=
  [("tokens_per_second",          "Tokens/sec",          false),
   ("requests_waiting",           "Queue depth",         true),
   ("time_to_first_token_p50",    "TTFT p50",            true),
   ("time_to_first_token_p95",    "TTFT p95",            true),
   ("time_to_first_token_p99",    "TTFT p99",            true),
   ("time_per_output_token_p50",  "TBT p50",             true),
   ("time_per_output_token_p95",  "TBT p95",             true),
   ("gpu_cache_usage_percent",    "KV cache usage",      true),
   ("gpu_utilization_percent",    "GPU utilization",     false),
   ("avg_batch_size",             "Avg batch size",      false),
   ("estimated_cost_per_1k_tokens", "Cost per 1K tokens", true),
   ("cumulative_cost_usd",        "Cumulative cost",     true),
   ("sla_compliance_percent",     "SLA compliance",      false)]

/-- Python getattr on an InferenceSnapshot for the numeric attributes the
dataclass declares; none models the AttributeError raised for any other
name (only numeric attributes are ever requested by _METRICS). -/
def snapGetattr (s : InferenceSnapshot) (attr : String) : Option ℚ :=
  if attr == "requests_running" then some (s.requests_running : ℚ)
  else if attr == "requests_waiting" then some (s.requests_waiting : ℚ)
  else if attr == "requests_completed" then some (s.requests_completed : ℚ)
  else if attr == "prompt_tokens_total" then some (s.prompt_tokens_total : ℚ)
  else if attr == "generation_tokens_total" then some (s.generation_tokens_total : ℚ)
  else if attr == "tokens_per_second" then some s.tokens_per_second
  else if attr == "time_to_first_token_p50" then some s.time_to_first_token_p50
  else if attr == "time_to_first_token_p95" then some s.time_to_first_token_p95
  else if attr == "time_to_first_token_p99" then some s.time_to_first_token_p99
  else if attr == "time_per_output_token_p50" then some s.time_per_output_token_p50
  else if attr == "time_per_output_token_p95" then some s.time_per_output_token_p95
  else if attr == "time_per_output_token_p99" then some s.time_per_output_token_p99
  else if attr == "gpu_cache_usage_percent" then some s.gpu_cache_usage_percent
  else if attr == "gpu_memory_used_gb" then some s.gpu_memory_used_gb
  else if attr == "gpu_memory_total_gb" then some s.gpu_memory_total_gb
  else if attr == "gpu_utilization_percent" then some s.gpu_utilization_percent
  else if attr == "avg_batch_size" then some s.avg_batch_size
  else if attr == "max_batch_size" then some (s.max_batch_size : ℚ)
  else if attr == "estimated_cost_per_1k_tokens" then some s.estimated_cost_per_1k_tokens
  else none

/-- Evaluate f on every element, propagating a raise (none) from any
element; models a Python list comprehension. -/
def listCollect {α β : Type} (f : α → Option β) : List α → Option (List β)
  | [] => some []
  | x :: l =>
    match f x with
    | none => none
    | some y =>
      match listCollect f l with
      | none => none
      | some ys => some (y :: ys)

/-- _avg (comparison.py lines 63-65): mean of an attribute over a window,
0 for an empty window; none models the AttributeError from getattr. -/
def avgAttr (snapshots : List InferenceSnapshot) (attr : String) : Option ℚ :=
  match listCollect (fun s => snapGetattr s attr) snapshots with
  | none => none
  | some values =>
    some (if values.isEmpty then 0 else values.sum / (values.length : ℚ))

/-- The per-metric delta computation inside the compare loop
(comparison.py lines 83-104). -/
def compareMetric (before after : List InferenceSnapshot)
    (m : String × String × Bool) : Option MetricDelta :=
  match avgAttr before m.1 with
  | none => none
  | some beforeVal =>
    match avgAttr after m.1 with
    | none => none
    | some afterVal =>
      let delta := afterVal - beforeVal
      let deltaPct := if beforeVal ≠ 0 then delta / |beforeVal| * 100 else 0
      let improved : Option Bool :=
        if |deltaPct| < 1 then none
        else if m.2.2 then some (delta < 0)
        else some (0 < delta)
      some ⟨m.2.1, beforeVal, afterVal, delta, deltaPct, improved⟩

/-- compare (comparison.py lines 68-124).  The outer Option models the
AttributeError that getattr raises when _METRICS names an attribute the
snapshot dataclass does not declare. -/
def compare (before after : List InferenceSnapshot) : Option ComparisonReport :=
  if before = [] ∨ after = [] then
    some ⟨before.length, after.length, [],
      "Need snapshots in both windows to compare."⟩
  else
    match listCollect (compareMetric before after) METRICS with
    | none => none
    | some deltas =>
      let improvements := (deltas.filter (fun d => d.improved == some true)).length
      let regressions := (deltas.filter (fun d => d.improved == some false)).length
      let summary :=
        if regressions = 0 ∧ 0 < improvements then
          toString improvements ++ " metrics improved, no regressions."
        else if improvements = 0 ∧ 0 < regressions then
          toString regressions ++ " metrics regressed, no improvements."
        else if 0 < improvements ∧ 0 < regressions then
          toString improvements ++ " improved, " ++ toString regressions ++
            " regressed -- mixed results."
        else "No significant changes detected."
      some ⟨before.length, after.length, deltas, summary⟩

/-! ### Float formatting used in message text

Model of the format specifier used inside f-strings ("{x:.Nf}"): scale,
round half to even (the rounding CPython applies), and print with N
decimals.  The message strings below embed their numbers through this;
no claim inspects the message text, so these are never evaluated in the
proofs, but they keep the record contents faithful. -/

/-- Round half to even, the float-to-integer rounding of the format spec. -/
def roundHalfEven (x : ℚ) : Int :=
  let n : Int := ⌊x⌋
  let r : ℚ := x - n
  if r < 1 / 2 then n
  else if 1 / 2 < r then n + 1
  else if n % 2 = 0 then n else n + 1

/-- Zero-pad on the left to the given width. -/
def padZeros (w : Nat) (s : String) : String :=
  String.mk (List.replicate (w - s.length) '0') ++ s

/-- Model of format(x, ".Nf"). -/
def fmtF (decimals : Nat) (x : ℚ) : String :=
  let scaled := roundHalfEven (x * (10 ^ decimals : ℕ))
  if decimals = 0 then toString scaled
  else
    let sign := if scaled < 0 then "-" else ""
    let a := scaled.natAbs
    sign ++ toString (a / 10 ^ decimals) ++ "." ++
      padZeros decimals (toString (a % 10 ^ decimals))

/-! ### Recommendation engine (recommendations.py) -/

/-- Recommendation dataclass (recommendations.py lines 19-25). -/
structure Recommendation where
  severity : String
  category : String
  title : String
  detail : String
  config_hint : Option String
deriving DecidableEq, Repr

/-- Rule 1, _check_batch_utilization (lines 57-84).  Each rule returns
the recommendations it appends to the shared list (zero or one). -/
def checkBatchUtilization (snap : InferenceSnapshot) : List Recommendation :=
  if snap.max_batch_size = 0 then []
  else
    let util : ℚ := snap.avg_batch_size / (snap.max_batch_size : ℚ)
    if util < 0.25 ∧ snap.requests_waiting = 0 then
      [{ severity := "info", category := "batching"
         title := "Low batch utilization with empty queue"
         detail := "Batch utilization is " ++ fmtF 0 (util * 100) ++
           "% with no requests waiting. The GPU has capacity for larger batches."
         config_hint := some "--max-num-seqs (increase to allow more concurrent sequences)" }]
    else if (0.9 : ℚ) < util ∧ 0 < snap.requests_waiting then
      [{ severity := "warning", category := "batching"
         title := "Batch is full with requests queued"
         detail := "Running at " ++ fmtF 0 (util * 100) ++ "% batch capacity with " ++
           toString snap.requests_waiting ++ " requests waiting. Throughput is capped."
         config_hint := some "--max-num-seqs (increase if VRAM allows)" }]
    else []

/-- Rule 2, _check_kv_cache_pressure (lines 87-111). -/
def checkKvCachePressure (snap : InferenceSnapshot) : List Recommendation :=
  let usage := snap.gpu_cache_usage_percent
  if (0.92 : ℚ) < usage then
    [{ severity := "critical", category := "cache"
       title := "KV cache near full"
       detail := "KV cache at " ++ fmtF 0 (usage * 100) ++
         "%. New requests will stall or get evicted. This directly impacts latency and throughput."
       config_hint := some "--gpu-memory-utilization (increase), --max-model-len (decrease), or --enable-prefix-caching" }]
  else if (0.80 : ℚ) < usage then
    [{ severity := "warning", category := "cache"
       title := "KV cache pressure building"
       detail := "KV cache at " ++ fmtF 0 (usage * 100) ++
         "%. Not critical yet, but approaching the point where eviction starts hurting performance."
       config_hint := some "--enable-prefix-caching (reuse common prefixes to save cache space)" }]
  else []

/-- Rule 3, _check_queue_depth (lines 114-134). -/
def checkQueueDepth (snap : InferenceSnapshot) : List Recommendation :=
  if 10 < snap.requests_waiting then
    [{ severity := "critical", category := "latency"
       title := "Request queue backup"
       detail := toString snap.requests_waiting ++
         " requests waiting. Users are experiencing queuing delays. Either increase throughput or add capacity."
       config_hint := none }]
  else if 5 < snap.requests_waiting then
    [{ severity := "warning", category := "latency"
       title := "Queue building"
       detail := toString snap.requests_waiting ++
         " requests waiting. Queue is growing -- watch for latency impact."
       config_hint := none }]
  else []

/-- Rule 4, _check_ttft_latency (lines 137-159). -/
def checkTtftLatency (snap : InferenceSnapshot) : List Recommendation :=
  let ttftMs := snap.time_to_first_token_p95 * 1000
  if (500 : ℚ) < ttftMs then
    [{ severity := "critical", category := "latency"
       title := "High time-to-first-token"
       detail := "TTFT p95 is " ++ fmtF 0 ttftMs ++
         "ms. Users are waiting over half a second before seeing any output. Check queue depth and cache pressure."
       config_hint := none }]
  else if (250 : ℚ) < ttftMs then
    [{ severity := "warning", category := "latency"
       title := "Elevated time-to-first-token"
       detail := "TTFT p95 is " ++ fmtF 0 ttftMs ++
         "ms. Noticeable to users. Often caused by KV cache contention or prompt processing bottleneck."
       config_hint := none }]
  else []

/-- Rule 5, _check_tbt_latency (lines 162-174). -/
def checkTbtLatency (snap : InferenceSnapshot) : List Recommendation :=
  let tbtMs := snap.time_per_output_token_p95 * 1000
  if (100 : ℚ) < tbtMs then
    [{ severity := "warning", category := "latency"
       title := "Slow token generation"
       detail := "Time per output token p95 is " ++ fmtF 0 tbtMs ++
         "ms. Streaming responses will feel sluggish. Usually means the GPU is overloaded."
       config_hint := none }]
  else []

/-- Rule 6, _check_gpu_underutilization (lines 177-192). -/
def checkGpuUnderutilization (snap : InferenceSnapshot) : List Recommendation :=
  if snap.gpu_utilization_percent = 0 ∧ snap.gpu_memory_total_gb = 0 then []
  else if snap.gpu_utilization_percent < 0.3 ∧ 0 < snap.requests_running then
    [{ severity := "info", category := "utilization"
       title := "GPU underutilized"
       detail := "GPU at " ++ fmtF 0 (snap.gpu_utilization_percent * 100) ++
         "% utilization with " ++ toString snap.requests_running ++
         " active requests. You could handle more concurrent load or use a smaller/cheaper GPU."
       config_hint := none }]
  else []

/-- Rule 7, _check_cost_efficiency (lines 195-206). -/
def checkCostEfficiency (snap : InferenceSnapshot) : List Recommendation :=
  if snap.tokens_per_second < 20 ∧ (0.01 : ℚ) < snap.estimated_cost_per_1k_tokens then
    [{ severity := "info", category := "cost"
       title := "Low throughput driving up cost"
       detail := "Generating " ++ fmtF 0 snap.tokens_per_second ++ " tokens/sec at $" ++
         fmtF 4 snap.estimated_cost_per_1k_tokens ++
         "/1K tokens. Improving batch utilization or reducing queue stalls would lower cost."
       config_hint := none }]
  else []

/-- The average TTFT p95 over the oldest third of the history
(recommendations.py lines 219-220); integer division by 3, slice
guaranteed non-empty by the caller's length guard. -/
def oldThirdAvg (history : List InferenceSnapshot) : ℚ :=
  let oldSlice := history.take (history.length / 3)
  (oldSlice.map (fun s => s.time_to_first_token_p95)).sum / (oldSlice.length : ℚ)

/-- Trend rule, _check_latency_trend (lines 209-236): compare the current
TTFT p95 to the average over the oldest third of the history. -/
def checkLatencyTrend (current : InferenceSnapshot)
    (history : List InferenceSnapshot) : List Recommendation :=
  if history.length < 5 then []
  else if oldThirdAvg history = 0 then []
  else
    if (1 : ℚ) / 2 <
        (current.time_to_first_token_p95 - oldThirdAvg history) / oldThirdAvg history then
      [{ severity := "warning", category := "latency"
         title := "TTFT trending upward"
         detail := "TTFT p95 has increased ~" ++
           fmtF 0 ((current.time_to_first_token_p95 - oldThirdAvg history) /
             oldThirdAvg history * 100) ++
           "% over the recent window. Likely caused by growing load or cache pressure."
         config_hint := none }]
    else []

/-- The list built by analyze before sorting (recommendations.py lines
36-47): the seven rules in their fixed order, then the trend rule when a
history of at least five entries was passed (a non-empty check models the
truthiness test on the optional argument). -/
def analyzeRaw (current : InferenceSnapshot)
    (history : Option (List InferenceSnapshot)) : List Recommendation :=
  checkBatchUtilization current ++ checkKvCachePressure current ++
  checkQueueDepth current ++ checkTtftLatency current ++
  checkTbtLatency current ++ checkGpuUnderutilization current ++
  checkCostEfficiency current ++
  (match history with
   | some h => if h ≠ [] ∧ 5 ≤ h.length then checkLatencyTrend current h else []
   | none => [])

/-- severity_order.get with default 99 (recommendations.py line 49). -/
def severityRank (sev : String) : Nat :=
  if sev == "critical" then 0
  else if sev == "warning" then 1
  else if sev == "info" then 2
  else 99

/-- analyze (recommendations.py lines 28-51): run the rules, then
stable-sort by severity rank. -/
def analyze (current : InferenceSnapshot)
    (history : Option (List InferenceSnapshot)) : List Recommendation :=
  isortK (fun r => severityRank r.severity) (analyzeRaw current history)

/-! ### Config advisor (config_advisor.py) -/

/-- ConfigSuggestion dataclass (config_advisor.py lines 20-27). -/
structure ConfigSuggestion where
  flag : String
  current_hint : String
  suggested_action : String
  expected_impact : String
  confidence : String
  priority : Int
deriving DecidableEq, Repr

/-- _advise_batch_size (lines 47-71). -/
def adviseBatchSize (snap : InferenceSnapshot) : List ConfigSuggestion :=
  if snap.max_batch_size = 0 then []
  else
    let util : ℚ := snap.avg_batch_size / (snap.max_batch_size : ℚ)
    if util < 0.4 ∧ snap.requests_waiting = 0 then
      [{ flag := "--max-num-seqs"
         current_hint := "Batch " ++ fmtF 0 (util * 100) ++ "% utilized, no queue"
         suggested_action := "Decrease to match actual demand (saves memory for KV cache)"
         expected_impact := "Frees VRAM for longer sequences or larger cache"
         confidence := "high", priority := 3 }]
    else if (0.85 : ℚ) < util ∧ 3 < snap.requests_waiting then
      [{ flag := "--max-num-seqs"
         current_hint := "Batch " ++ fmtF 0 (util * 100) ++ "% full, " ++
           toString snap.requests_waiting ++ " queued"
         suggested_action := "Increase if VRAM allows (watch gpu_cache_usage)"
         expected_impact := "Reduces queue wait time, improves TTFT"
         confidence := "medium", priority := 1 }]
    else []

/-- _advise_cache_config (lines 74-95); both branches can fire. -/
def adviseCacheConfig (snap : InferenceSnapshot) : List ConfigSuggestion :=
  let cache := snap.gpu_cache_usage_percent
  (if (0.85 : ℚ) < cache then
    [{ flag := "--max-model-len"
       current_hint := "KV cache at " ++ fmtF 0 (cache * 100) ++ "%"
       suggested_action := "Reduce max sequence length if your workload allows shorter contexts"
       expected_impact := "Lowers peak cache usage, prevents eviction stalls"
       confidence := "medium", priority := 1 }]
  else []) ++
  (if (0.70 : ℚ) < cache ∧ (0.15 : ℚ) < snap.time_to_first_token_p95 then
    [{ flag := "--enable-chunked-prefill"
       current_hint := "Cache at " ++ fmtF 0 (cache * 100) ++ "%, TTFT p95 at " ++
         fmtF 0 (snap.time_to_first_token_p95 * 1000) ++ "ms"
       suggested_action := "Enable chunked prefill to overlap prompt processing with generation"
       expected_impact := "Smooths out TTFT spikes under high cache pressure"
       confidence := "medium", priority := 2 }]
  else [])

/-- _advise_gpu_memory (lines 98-112). -/
def adviseGpuMemory (snap : InferenceSnapshot) : List ConfigSuggestion :=
  if snap.gpu_memory_total_gb = 0 then []
  else
    let memUsage := snap.gpu_memory_used_gb / snap.gpu_memory_total_gb
    if memUsage < 0.6 ∧ (0.80 : ℚ) < snap.gpu_cache_usage_percent then
      [{ flag := "--gpu-memory-utilization"
         current_hint := "VRAM " ++ fmtF 0 (memUsage * 100) ++ "% used but cache at " ++
           fmtF 0 (snap.gpu_cache_usage_percent * 100) ++ "%"
         suggested_action := "Increase from default 0.9 to 0.95 to give more space to KV cache"
         expected_impact := "More cache headroom, fewer evictions"
         confidence := "high", priority := 1 }]
    else []

/-- _advise_quantization (lines 115-130). -/
def adviseQuantization (snap : InferenceSnapshot) : List ConfigSuggestion :=
  if snap.gpu_memory_total_gb = 0 then []
  else
    let memUsage := snap.gpu_memory_used_gb / snap.gpu_memory_total_gb
    if (0.9 : ℚ) < memUsage ∧ (0.85 : ℚ) < snap.gpu_cache_usage_percent then
      [{ flag := "--quantization awq / --quantization gptq"
         current_hint := "VRAM at " ++ fmtF 0 (memUsage * 100) ++ "%, cache at " ++
           fmtF 0 (snap.gpu_cache_usage_percent * 100) ++ "%"
         suggested_action := "Use a quantized model variant to free VRAM for KV cache"
         expected_impact := "~50% model memory reduction, minor quality tradeoff"
         confidence := "low", priority := 4 }]
    else []

/-- _advise_prefix_caching (lines 133-143). -/
def advisePrefixCaching (snap : InferenceSnapshot) : List ConfigSuggestion :=
  if (0.60 : ℚ) < snap.gpu_cache_usage_percent ∧ 4 < snap.requests_running then
    [{ flag := "--enable-prefix-caching"
       current_hint := "Cache at " ++ fmtF 0 (snap.gpu_cache_usage_percent * 100) ++
         "% with " ++ toString snap.requests_running ++ " active"
       suggested_action := "Enable automatic prefix caching for shared prompt prefixes"
       expected_impact := "Reduces cache duplication if requests share common system prompts"
       confidence := "medium", priority := 2 }]
  else []

/-- advise (config_advisor.py lines 30-44): run the five heuristics in
order, then stable-sort ascending by priority. -/
def advise (snapshot : InferenceSnapshot) : List ConfigSuggestion :=
  isortK (fun s => s.priority)
    (adviseBatchSize snapshot ++ adviseCacheConfig snapshot ++
     adviseGpuMemory snapshot ++ adviseQuantization snapshot ++
     advisePrefixCaching snapshot)

/-! ### Concrete inputs used by witnesses and counterexamples -/

/-- A data line consisting of a name directly followed by an empty label
block and nothing after the closing brace. -/
def braceOnlyLine : String :=
  "m" ++ String.singleton lbraceC ++ String.singleton rbraceC

/-- Histogram family with integer boundaries 1 and 2, cumulative counts
5 and 10, and a _count sample of 10. -/
def famMono : MetricFamily :=
  { name := "m", metric_type := "histogram", help_text := ""
    samples :=
      [⟨"m_bucket", [("le", "1")], 5⟩,
       ⟨"m_bucket", [("le", "2")], 10⟩,
       ⟨"m_count", [], 10⟩] }

/-- Family map holding famMono under its name. -/
def famsMono : FamilyMap := [("m", famMono)]

/-- Histogram family with the single negative boundary -1, cumulative
count 10, and a _count sample of 10: bucket counts are (trivially)
monotone, yet the boundary is below the hard-coded starting bound 0. -/
def famNeg : MetricFamily :=
  { name := "m", metric_type := "histogram", help_text := ""
    samples :=
      [⟨"m_bucket", [("le", "-1")], 10⟩,
       ⟨"m_count", [], 10⟩] }

/-- Family map holding famNeg under its name. -/
def famsNeg : FamilyMap := [("m", famNeg)]

/-- The +Inf bucket sample used for the total-count resolution witness. -/
def infBucketSample : MetricSample := ⟨"m_bucket", [("le", "+Inf")], 50⟩

/-- The _count sample used for the total-count resolution witness. -/
def countSample : MetricSample := ⟨"m_count", [], 70⟩

/-- Snapshot of the C9 example: avgBatch=15, maxBatch=16, waiting=5, all
other metric fields at their zero defaults. -/
def snapBatchFull : InferenceSnapshot :=
  { snapZero with avg_batch_size := 15, max_batch_size := 16, requests_waiting := 5 }

/-- Current snapshot of the trend counterexample: TTFT p95 of 1 second,
everything else zero. -/
def snapTtftOne : InferenceSnapshot :=
  { snapZero with time_to_first_token_p95 := 1 }

/-- History snapshot with TTFT p95 = 0.08 s. -/
def snapTtftLow : InferenceSnapshot :=
  { snapZero with time_to_first_token_p95 := 2 / 25 }

/-- Current snapshot with TTFT p95 = 0.2 s. -/
def snapTtftHigh : InferenceSnapshot :=
  { snapZero with time_to_first_token_p95 := 1 / 5 }

/-! ### Proof-side helper definitions -/

/-- The bucket walk together with its fall-through value. -/
def walkFull (target prevBound prevCount : ℚ) (l : List (ℚ × ℚ)) (fb : ℚ) : ℚ :=
  (interpWalk target prevBound prevCount l).getD fb

/-- Whether a sample writes the running total_count in the scan of
get_histogram_percentile: a _bucket sample whose le label is "+Inf", or a
sample (not ending in _bucket) whose name ends in _count. -/
def isTotalSetter (s : MetricSample) : Bool :=
  if pyEndsWith s.name.toList "_bucket".toList then
    (dictGet s.labels "le") == some "+Inf"
  else pyEndsWith s.name.toList "_count".toList

/-! ### Stable insertion sort: permutation, sortedness, stability -/

theorem insertK_perm {α β : Type} [LinearOrder β] (key : α → β) (x : α) :
    ∀ l : List α, (insertK key x l).Perm (x :: l)
  | [] => by simp [insertK]
  | y :: l => by
    by_cases h : key y < key x
    · simp only [insertK, if_pos h]
      exact ((insertK_perm key x l).cons y).trans (List.Perm.swap x y l)
    · simp [insertK, if_neg h]

theorem isortK_perm {α β : Type} [LinearOrder β] (key : α → β) :
    ∀ l : List α, (isortK key l).Perm l
  | [] => List.Perm.refl []
  | x :: l => (insertK_perm key x (isortK key l)).trans ((isortK_perm key l).cons x)

theorem mem_isortK {α β : Type} [LinearOrder β] (key : α → β) (l : List α) (a : α) :
    a ∈ isortK key l ↔ a ∈ l :=
  (isortK_perm key l).mem_iff

theorem pairwise_insertK {α β : Type} [LinearOrder β] (key : α → β) (x : α) :
    ∀ l : List α, List.Pairwise (fun a b => key a ≤ key b) l →
      List.Pairwise (fun a b => key a ≤ key b) (insertK key x l)
  | [], _ => by simp [insertK]
  | y :: l, h => by
    rcases List.pairwise_cons.mp h with ⟨hy, hl⟩
    by_cases hk : key y < key x
    · simp only [insertK, if_pos hk]
      refine List.pairwise_cons.mpr ⟨?_, pairwise_insertK key x l hl⟩
      intro z hz
      rcases List.mem_cons.mp ((insertK_perm key x l).mem_iff.mp hz) with rfl | hzl
      · exact le_of_lt hk
      · exact hy z hzl
    · simp only [insertK, if_neg hk]
      refine List.pairwise_cons.mpr ⟨?_, h⟩
      intro z hz
      rcases List.mem_cons.mp hz with rfl | hzl
      · exact le_of_not_lt hk
      · exact le_trans (le_of_not_lt hk) (hy z hzl)

theorem pairwise_isortK {α β : Type} [LinearOrder β] (key : α → β) :
    ∀ l : List α, List.Pairwise (fun a b => key a ≤ key b) (isortK key l)
  | [] => List.Pairwise.nil
  | x :: l => pairwise_insertK key x (isortK key l) (pairwise_isortK key l)

theorem filter_insertK_pos {α β : Type} [LinearOrder β] (key : α → β)
    (p : α → Bool) (x : α) (hx : p x = true)
    (hkey : ∀ y, p y = true → key y = key x) :
    ∀ l : List α, (insertK key x l).filter p = x :: l.filter p
  | [] => by simp [insertK, hx]
  | y :: l => by
    by_cases hk : key y < key x
    · have hpy : p y = false := by
        cases hpy : p y with
        | false => rfl
        | true => exact absurd (hkey y hpy ▸ hk) (lt_irrefl (key x))
      simp [insertK, if_pos hk, List.filter_cons, hpy,
        filter_insertK_pos key p x hx hkey l]
    · simp [insertK, if_neg hk, List.filter_cons, hx]

theorem filter_insertK_neg {α β : Type} [LinearOrder β] (key : α → β)
    (p : α → Bool) (x : α) (hx : p x = false) :
    ∀ l : List α, (insertK key x l).filter p = l.filter p
  | [] => by simp [insertK, hx]
  | y :: l => by
    by_cases hk : key y < key x
    · simp [insertK, if_pos hk, List.filter_cons,
        filter_insertK_neg key p x hx l]
    · simp [insertK, if_neg hk, List.filter_cons, hx]

theorem filter_isortK {α β : Type} [LinearOrder β] (key : α → β)
    (p : α → Bool)
    (hkey : ∀ a b, p a = true → p b = true → key a = key b) :
    ∀ l : List α, (isortK key l).filter p = l.filter p
  | [] => rfl
  | x :: l => by
    cases hx : p x with
    | false =>
      rw [isortK, filter_insertK_neg key p x hx, filter_isortK key p hkey l]
      simp [List.filter_cons, hx]
    | true =>
      rw [isortK, filter_insertK_pos key p x hx (fun y hy => hkey y x hy hx),
        filter_isortK key p hkey l]
      simp [List.filter_cons, hx]

/-! ### Properties of the bucket walk -/

theorem walkFull_nil (t pB pC fb : ℚ) : walkFull t pB pC [] fb = fb := rfl

theorem walkFull_cons (t pB pC b c fb : ℚ) (rest : List (ℚ × ℚ)) :
    walkFull t pB pC ((b, c) :: rest) fb =
      if t ≤ c then pB + ((t - pC) / max 1 (c - pC)) * (b - pB)
      else walkFull t b c rest fb := by
  by_cases h : t ≤ c <;> simp [walkFull, interpWalk, h]

theorem interpVal_le_bound (t pB pC b c : ℚ) (ht : t ≤ c) (hpb : pB ≤ b) :
    pB + ((t - pC) / max 1 (c - pC)) * (b - pB) ≤ b := by
  have hD : (0 : ℚ) < max 1 (c - pC) := lt_of_lt_of_le one_pos (le_max_left _ _)
  have hf : (t - pC) / max 1 (c - pC) ≤ 1 := by
    rw [div_le_one hD]
    calc t - pC ≤ c - pC := by linarith
    _ ≤ max 1 (c - pC) := le_max_right _ _
  have hmul : ((t - pC) / max 1 (c - pC)) * (b - pB) ≤ 1 * (b - pB) :=
    mul_le_mul_of_nonneg_right hf (by linarith)
  linarith

theorem interpVal_ge_prev (t pB pC b c : ℚ) (ht : pC ≤ t) (hpb : pB ≤ b) :
    pB ≤ pB + ((t - pC) / max 1 (c - pC)) * (b - pB) := by
  have hD : (0 : ℚ) < max 1 (c - pC) := lt_of_lt_of_le one_pos (le_max_left _ _)
  have hf : 0 ≤ (t - pC) / max 1 (c - pC) := div_nonneg (by linarith) hD.le
  have hmul : 0 ≤ ((t - pC) / max 1 (c - pC)) * (b - pB) :=
    mul_nonneg hf (by linarith)
  linarith

theorem walkFull_lb :
    ∀ (l : List (ℚ × ℚ)) (pB pC t fb : ℚ),
      pC ≤ t →
      (∀ x ∈ l, pB ≤ x.1) →
      List.Pairwise (fun x y : ℚ × ℚ => x.1 ≤ y.1) l →
      (∀ x ∈ l, x.1 ≤ fb) →
      pB ≤ fb →
      pB ≤ walkFull t pB pC l fb
  | [], _, _, _, _, _, _, _, _, hpfb => by rw [walkFull_nil]; exact hpfb
  | (b, c) :: rest, pB, pC, t, fb, hpt, hpb, hpw, hxfb, _ => by
    rw [walkFull_cons]
    have hpbb : pB ≤ b := hpb (b, c) (List.mem_cons_self _ _)
    by_cases h : t ≤ c
    · rw [if_pos h]
      exact interpVal_ge_prev t pB pC b c hpt hpbb
    · rw [if_neg h]
      rcases List.pairwise_cons.mp hpw with ⟨hhead, htail⟩
      have hrec : b ≤ walkFull t b c rest fb :=
        walkFull_lb rest b c t fb (le_of_lt (lt_of_not_le h))
          (fun x hx => hhead x hx) htail
          (fun x hx => hxfb x (List.mem_cons_of_mem _ hx))
          (hxfb (b, c) (List.mem_cons_self _ _))
      exact le_trans hpbb hrec

theorem walkFull_ub :
    ∀ (l : List (ℚ × ℚ)) (pB pC t fb : ℚ),
      (∀ x ∈ l, pB ≤ x.1) →
      List.Pairwise (fun x y : ℚ × ℚ => x.1 ≤ y.1) l →
      (∀ x ∈ l, x.1 ≤ fb) →
      pB ≤ fb →
      walkFull t pB pC l fb ≤ fb
  | [], _, _, _, _, _, _, _, _ => le_of_eq (walkFull_nil _ _ _ _)
  | (b, c) :: rest, pB, pC, t, fb, hpb, hpw, hxfb, hpfb => by
    rw [walkFull_cons]
    have hpbb : pB ≤ b := hpb (b, c) (List.mem_cons_self _ _)
    have hbfb : b ≤ fb := hxfb (b, c) (List.mem_cons_self _ _)
    by_cases h : t ≤ c
    · rw [if_pos h]
      exact le_trans (interpVal_le_bound t pB pC b c h hpbb) hbfb
    · rw [if_neg h]
      rcases List.pairwise_cons.mp hpw with ⟨hhead, htail⟩
      exact walkFull_ub rest b c t fb (fun x hx => hhead x hx) htail
        (fun x hx => hxfb x (List.mem_cons_of_mem _ hx)) hbfb

theorem walkFull_mono :
    ∀ (l : List (ℚ × ℚ)) (pB pC t1 t2 fb : ℚ),
      t1 ≤ t2 →
      (∀ x ∈ l, pB ≤ x.1) →
      List.Pairwise (fun x y : ℚ × ℚ => x.1 ≤ y.1) l →
      (∀ x ∈ l, x.1 ≤ fb) →
      pB ≤ fb →
      walkFull t1 pB pC l fb ≤ walkFull t2 pB pC l fb
  | [], _, _, _, _, _, _, _, _, _, _ => by rw [walkFull_nil, walkFull_nil]
  | (b, c) :: rest, pB, pC, t1, t2, fb, ht, hpb, hpw, hxfb, hpfb => by
    rw [walkFull_cons, walkFull_cons]
    have hpbb : pB ≤ b := hpb (b, c) (List.mem_cons_self _ _)
    rcases List.pairwise_cons.mp hpw with ⟨hhead, htail⟩
    by_cases h2 : t2 ≤ c
    · have h1 : t1 ≤ c := le_trans ht h2
      rw [if_pos h1, if_pos h2]
      have hD : (0 : ℚ) < max 1 (c - pC) := lt_of_lt_of_le one_pos (le_max_left _ _)
      have hf : (t1 - pC) / max 1 (c - pC) ≤ (t2 - pC) / max 1 (c - pC) := by
        gcongr
      have hmul :
          ((t1 - pC) / max 1 (c - pC)) * (b - pB) ≤
            ((t2 - pC) / max 1 (c - pC)) * (b - pB) :=
        mul_le_mul_of_nonneg_right hf (by linarith)
      linarith
    · by_cases h1 : t1 ≤ c
      · rw [if_pos h1, if_neg h2]
        have hv1 : pB + ((t1 - pC) / max 1 (c - pC)) * (b - pB) ≤ b :=
          interpVal_le_bound t1 pB pC b c h1 hpbb
        have hrec : b ≤ walkFull t2 b c rest fb :=
          walkFull_lb rest b c t2 fb (le_of_lt (lt_of_not_le h2))
            (fun x hx => hhead x hx) htail
            (fun x hx => hxfb x (List.mem_cons_of_mem _ hx))
            (hxfb (b, c) (List.mem_cons_self _ _))
        exact le_trans hv1 hrec
      · rw [if_neg h1, if_neg h2]
        exact walkFull_mono rest b c t1 t2 fb ht (fun x hx => hhead x hx) htail
          (fun x hx => hxfb x (List.mem_cons_of_mem _ hx))
          (hxfb (b, c) (List.mem_cons_self _ _))

/-! ### Small list helpers -/

theorem getLastMem {α : Type} : ∀ (l : List α) (z : α), l.getLast? = some z → z ∈ l
  | [], z, h => by simp at h
  | [a], z, h => by
    simp only [List.getLast?_singleton, Option.some.injEq] at h
    simp [h]
  | a :: b :: t, z, h => by
    rw [List.getLast?_cons_cons] at h
    exact List.mem_cons_of_mem _ (getLastMem (b :: t) z h)

theorem pairwiseFstLeGetLast :
    ∀ (l : List (ℚ × ℚ)) (z : ℚ × ℚ), l.getLast? = some z →
      List.Pairwise (fun x y : ℚ × ℚ => x.1 ≤ y.1) l →
      ∀ x ∈ l, x.1 ≤ z.1
  | [], _, h, _, _, hx => by simp at hx
  | [a], z, h, _, x, hx => by
    simp only [List.getLast?_singleton, Option.some.injEq] at h
    simp only [List.mem_singleton] at hx
    rw [hx, h]
  | a :: b :: t, z, h, hp, x, hx => by
    rw [List.getLast?_cons_cons] at h
    rcases List.pairwise_cons.mp hp with ⟨hhead, htail⟩
    rcases List.mem_cons.mp hx with rfl | hxl
    · exact hhead z (getLastMem (b :: t) z h)
    · exact pairwiseFstLeGetLast (b :: t) z h htail x hxl

theorem bucketQuantile_eq_walkFull (l : List (ℚ × ℚ)) (t : ℚ) (z : ℚ × ℚ)
    (h : l.getLast? = some z) :
    bucketQuantile l t = some (walkFull t 0 0 l z.1) := by
  unfold bucketQuantile walkFull
  cases hiw : interpWalk t 0 0 l <;> simp [hiw, h]

theorem listCollect_none {α β : Type} (f : α → Option β) :
    ∀ (l : List α) (x : α), x ∈ l → f x = none → listCollect f l = none
  | [], x, hx, _ => absurd hx (List.not_mem_nil x)
  | a :: l, x, hx, hfx => by
    rcases List.mem_cons.mp hx with rfl | hxl
    · simp [listCollect, hfx]
    · cases hfa : f a <;>
        simp [listCollect, hfa, listCollect_none f l x hxl hfx]

/-! ### Scan-step facts for total-count resolution -/

theorem scanStep_setter (acc : List (ℚ × ℚ) × Option ℚ) (s : MetricSample)
    (hs : isTotalSetter s = true) : (scanStep acc s).2 = some s.value := by
  unfold isTotalSetter at hs
  unfold scanStep
  split
  · rename_i hb
    rw [if_pos hb] at hs
    split
    · rename_i le hd
      rw [hd] at hs
      have hle : le = "+Inf" := by simpa using hs
      subst hle
      rw [if_neg (by decide)]
    · rename_i hd
      rw [hd] at hs
      simp at hs
  · rename_i hb
    rw [if_neg hb] at hs
    rw [if_pos hs]

theorem scanStep_nonsetter (acc : List (ℚ × ℚ) × Option ℚ) (s : MetricSample)
    (hs : isTotalSetter s = false) : (scanStep acc s).2 = acc.2 := by
  unfold isTotalSetter at hs
  unfold scanStep
  split
  · rename_i hb
    rw [if_pos hb] at hs
    split
    · rename_i le hd
      rw [hd] at hs
      have hle : (le != "+Inf") = true := by
        have hne : le ≠ "+Inf" := by simpa using hs
        simpa using hne
      rw [if_pos hle]
      split <;> rfl
    · rfl
  · rename_i hb
    rw [if_neg hb] at hs
    rw [if_neg (by simp only [hs]; decide)]

theorem foldlScanStep_nonsetters :
    ∀ (l : List MetricSample) (acc : List (ℚ × ℚ) × Option ℚ),
      (∀ t ∈ l, isTotalSetter t = false) → (l.foldl scanStep acc).2 = acc.2
  | [], _, _ => rfl
  | s :: l, acc, h => by
    rw [List.foldl_cons,
      foldlScanStep_nonsetters l _ (fun t ht => h t (List.mem_cons_of_mem _ ht))]
    exact scanStep_nonsetter acc s (h s (List.mem_cons_self _ _))

/-! ### Claim theorems -/

/-- Claim C1 (code_bug evaluation): compare raises on every pair of
non-empty windows of InferenceSnapshot records, because _METRICS names
the attributes cumulative_cost_usd and sla_compliance_percent which the
InferenceSnapshot dataclass of metrics.py does not declare, so the
getattr inside _avg raises AttributeError.  The none result models that
raise, here evaluated at two singleton windows of all-default snapshots;
the claim (and spec section 3, and the repository's own comparison and
sqlite tests) expect a normally returned report instead. -/
theorem c1_compare_raises_on_missing_cost_fields :
    compare [snapZero] [snapZero] = none := by
  have hattr : snapGetattr snapZero "cumulative_cost_usd" = none := by decide
  have havg : avgAttr [snapZero] "cumulative_cost_usd" = none := by
    simp [avgAttr, listCollect, hattr]
  have hmetric :
      compareMetric [snapZero] [snapZero]
        ("cumulative_cost_usd", "Cumulative cost", true) = none := by
    simp [compareMetric, havg]
  have hmem : ("cumulative_cost_usd", "Cumulative cost", true) ∈ METRICS := by
    simp [METRICS]
  have hcollect :
      listCollect (compareMetric [snapZero] [snapZero]) METRICS = none :=
    listCollect_none _ METRICS _ hmem hmetric
  unfold compare
  rw [if_neg (by simp), hcollect]

/-- Claim C2 (code_bug evaluation): parse_prometheus_text raises
IndexError on the line consisting of a name, an opening brace and a
closing brace with nothing after it, because the [0] subscript of
line[brace_end + 1:].strip().split() is outside the try block; the none
result models that raise.  The claim (and spec sections 4.1 and 7) say
parsing never fails and skips unparseable lines individually. -/
theorem c2_parse_raises_on_brace_line_without_value :
    parsePrometheusText braceOnlyLine = none := by decide

/-- Claim C3 (counterexample): on the window pair ([], [snapZero]) the
returned report has after_count 1, not the zero before/after counts the
claim states; the counts are the respective window lengths. -/
theorem c3_counterexample :
    (compare [] [snapZero]).map ComparisonReport.after_count = some 1 ∧
    ¬ (compare [] [snapZero]).map ComparisonReport.after_count = some 0 := by
  have h : compare [] [snapZero] =
      some ⟨0, 1, [], "Need snapshots in both windows to compare."⟩ := by
    unfold compare
    rw [if_pos (Or.inl rfl)]
    rfl
  rw [h]
  simp

/-- Claim C3 (amended): whenever at least one window is empty, compare
returns (never raises) a report whose counts are the lengths of the
respective windows (zero for each empty window), with an empty delta
list and the fixed insufficient-data summary. -/
theorem c3_amended_empty_window_report (before after : List InferenceSnapshot)
    (h : before = [] ∨ after = []) :
    compare before after =
      some ⟨before.length, after.length, [],
        "Need snapshots in both windows to compare."⟩ := by
  unfold compare
  rw [if_pos h]

/-- Witness for the amended C3 at the concrete pair ([], [snapZero]). -/
theorem c3_witness :
    compare [] [snapZero] =
      some ⟨0, 1, [], "Need snapshots in both windows to compare."⟩ := by
  rw [c3_amended_empty_window_report [] [snapZero] (Or.inl rfl)]
  rfl

/-- Claim C4: in the sample scan of get_histogram_percentile, the final
total_count is the value of the last sample in arrival order that writes
it (a +Inf bucket or a _count sample); in particular, when the family
contains one of each, whichever appears later wins, with no fixed
preference for either source. -/
theorem c4_total_count_last_setter_wins (l1 l2 : List MetricSample)
    (s : MetricSample) (hs : isTotalSetter s = true)
    (h2 : ∀ t ∈ l2, isTotalSetter t = false) :
    (scanHist (l1 ++ s :: l2)).2 = some s.value := by
  unfold scanHist
  rw [List.foldl_append, List.foldl_cons, foldlScanStep_nonsetters l2 _ h2]
  exact scanStep_setter _ s hs

/-- Witness for C4: a family holding a +Inf bucket of value 50 followed
by a _count sample of value 70 resolves total_count to 70, the later of
the two. -/
theorem c4_witness : (scanHist [infBucketSample, countSample]).2 = some 70 :=
  c4_total_count_last_setter_wins [infBucketSample] [] countSample
    (by decide) (by simp)

/-- Claim C7: for every snapshot and history, analyze returns the rule
output sorted by severity rank (critical, then warning, then info), and
within each severity the recommendations appear exactly in the fixed
rule-evaluation order in which they were appended (stability of the
sort): filtering the sorted output by any severity gives the filtered
unsorted rule output unchanged. -/
theorem c7_analyze_sorted_stable (current : InferenceSnapshot)
    (history : Option (List InferenceSnapshot)) :
    List.Pairwise
      (fun a b => severityRank a.severity ≤ severityRank b.severity)
      (analyze current history) ∧
    ∀ sev : String,
      (analyze current history).filter (fun r => r.severity == sev) =
        (analyzeRaw current history).filter (fun r => r.severity == sev) := by
  constructor
  · exact pairwise_isortK _ _
  · intro sev
    apply filter_isortK
    intro a b ha hb
    have ha2 : a.severity = sev := by simpa using ha
    have hb2 : b.severity = sev := by simpa using hb
    rw [ha2, hb2]

/-- Decomposition of a positive endswith test: the string is its first
part followed by the suffix. -/
theorem pyEndsWith_decomp (cs suf : List Char) (h : pyEndsWith cs suf = true) :
    cs.take (cs.length - suf.length) ++ suf = cs := by
  unfold pyEndsWith at h
  have h2 : cs.drop (cs.length - suf.length) = suf := by simpa using h
  have h3 := List.take_append_drop (cs.length - suf.length) cs
  rw [h2] at h3
  exact h3

/-- Claim C8: the base family name checks the suffixes in the exact order
_total, _bucket, _sum, _count, _created and strips only the first one
that matches (the stripped name concatenated with that suffix restores
the original); a name matching none of them is left unchanged. -/
theorem c8_base_name_suffix_priority (name : String) :
    (pyEndsWith name.toList "_total".toList = true →
      (baseName name).toList ++ "_total".toList = name.toList) ∧
    (pyEndsWith name.toList "_total".toList = false →
      pyEndsWith name.toList "_bucket".toList = true →
      (baseName name).toList ++ "_bucket".toList = name.toList) ∧
    (pyEndsWith name.toList "_total".toList = false →
      pyEndsWith name.toList "_bucket".toList = false →
      pyEndsWith name.toList "_sum".toList = true →
      (baseName name).toList ++ "_sum".toList = name.toList) ∧
    (pyEndsWith name.toList "_total".toList = false →
      pyEndsWith name.toList "_bucket".toList = false →
      pyEndsWith name.toList "_sum".toList = false →
      pyEndsWith name.toList "_count".toList = true →
      (baseName name).toList ++ "_count".toList = name.toList) ∧
    (pyEndsWith name.toList "_total".toList = false →
      pyEndsWith name.toList "_bucket".toList = false →
      pyEndsWith name.toList "_sum".toList = false →
      pyEndsWith name.toList "_count".toList = false →
      pyEndsWith name.toList "_created".toList = true →
      (baseName name).toList ++ "_created".toList = name.toList) ∧
    (pyEndsWith name.toList "_total".toList = false →
      pyEndsWith name.toList "_bucket".toList = false →
      pyEndsWith name.toList "_sum".toList = false →
      pyEndsWith name.toList "_count".toList = false →
      pyEndsWith name.toList "_created".toList = false →
      baseName name = name) := by
  refine ⟨?_, ?_, ?_, ?_, ?_, ?_⟩
  · intro h1
    unfold baseName
    rw [if_pos h1]
    exact pyEndsWith_decomp name.toList "_total".toList h1
  · intro h1 h2
    unfold baseName
    rw [if_neg (by simp only [h1]; decide), if_pos h2]
    exact pyEndsWith_decomp name.toList "_bucket".toList h2
  · intro h1 h2 h3
    unfold baseName
    rw [if_neg (by simp only [h1]; decide), if_neg (by simp only [h2]; decide),
      if_pos h3]
    exact pyEndsWith_decomp name.toList "_sum".toList h3
  · intro h1 h2 h3 h4
    unfold baseName
    rw [if_neg (by simp only [h1]; decide), if_neg (by simp only [h2]; decide),
      if_neg (by simp only [h3]; decide), if_pos h4]
    exact pyEndsWith_decomp name.toList "_count".toList h4
  · intro h1 h2 h3 h4 h5
    unfold baseName
    rw [if_neg (by simp only [h1]; decide), if_neg (by simp only [h2]; decide),
      if_neg (by simp only [h3]; decide), if_neg (by simp only [h4]; decide),
      if_pos h5]
    exact pyEndsWith_decomp name.toList "_created".toList h5
  · intro h1 h2 h3 h4 h5
    unfold baseName
    rw [if_neg (by simp only [h1]; decide), if_neg (by simp only [h2]; decide),
      if_neg (by simp only [h3]; decide), if_neg (by simp only [h4]; decide),
      if_neg (by simp only [h5]; decide)]

/-- Witness for C8 at a concrete counter name ending in _total. -/
theorem c8_witness :
    (baseName "vllm:prompt_tokens_total").toList ++ "_total".toList =
      "vllm:prompt_tokens_total".toList :=
  (c8_base_name_suffix_priority "vllm:prompt_tokens_total").1 (by decide)

/-- Claim C6 (counterexample): with a history of five all-zero snapshots
and a current TTFT p95 of 1 second, the current value exceeds the
old-third average (zero) by more than 50 percent in the claim's sense
(current > 1.5 x average), yet analyze emits no recommendation titled
"TTFT trending upward", because _check_latency_trend returns as soon as
the old average is zero. -/
theorem c6_counterexample :
    5 ≤ (List.replicate 5 snapZero).length ∧
    oldThirdAvg (List.replicate 5 snapZero) = 0 ∧
    oldThirdAvg (List.replicate 5 snapZero) * (3 / 2) <
      snapTtftOne.time_to_first_token_p95 ∧
    (analyze snapTtftOne (some (List.replicate 5 snapZero))).all
      (fun r => !(r.title == "TTFT trending upward")) = true := by
  have h2 : oldThirdAvg (List.replicate 5 snapZero) = 0 := by
    norm_num [oldThirdAvg, snapZero, List.replicate]
  refine ⟨by decide, h2, ?_, ?_⟩
  · rw [h2]
    norm_num [snapTtftOne, snapZero]
  · norm_num [analyze, analyzeRaw, checkBatchUtilization, checkKvCachePressure,
      checkQueueDepth, checkTtftLatency, checkTbtLatency,
      checkGpuUnderutilization, checkCostEfficiency, checkLatencyTrend,
      oldThirdAvg, isortK, insertK, severityRank, snapTtftOne, snapZero,
      List.replicate]
    decide

/-- Claim C6 (amended): when the history has at least 5 entries, the
average TTFT p95 over its oldest third is positive, and the current TTFT
p95 exceeds that average by more than 50 percent, analyze emits a warning
recommendation titled "TTFT trending upward". -/
theorem c6_amended_ttft_trend_warning (current : InferenceSnapshot)
    (history : List InferenceSnapshot)
    (hlen : 5 ≤ history.length)
    (hpos : 0 < oldThirdAvg history)
    (hexc : oldThirdAvg history * (3 / 2) < current.time_to_first_token_p95) :
    (analyze current (some history)).any
      (fun r => r.severity == "warning" && r.title == "TTFT trending upward") =
      true := by
  have htrend : ∃ d, checkLatencyTrend current history =
      [{ severity := "warning", category := "latency"
         title := "TTFT trending upward", detail := d, config_hint := none }] := by
    unfold checkLatencyTrend
    rw [if_neg (by omega), if_neg (ne_of_gt hpos),
      if_pos (by rw [lt_div_iff₀ hpos]; linarith)]
    exact ⟨_, rfl⟩
  obtain ⟨d, hd⟩ := htrend
  have hne : history ≠ [] := by
    intro h0
    rw [h0] at hlen
    simp at hlen
  have hmemRaw :
      ({ severity := "warning", category := "latency",
         title := "TTFT trending upward", detail := d, config_hint := none } :
        Recommendation) ∈ analyzeRaw current (some history) := by
    unfold analyzeRaw
    refine List.mem_append.mpr (Or.inr ?_)
    show _ ∈ (if history ≠ [] ∧ 5 ≤ history.length then
      checkLatencyTrend current history else [])
    rw [if_pos ⟨hne, hlen⟩, hd]
    exact List.mem_singleton.mpr rfl
  have hmemSorted := (mem_isortK (fun r : Recommendation => severityRank r.severity)
    (analyzeRaw current (some history)) _).mpr hmemRaw
  exact List.any_eq_true.mpr ⟨_, hmemSorted, rfl⟩

/-- Witness for the amended C6: five history snapshots at TTFT p95 0.08 s
and a current snapshot at 0.2 s (a 150 percent increase). -/
theorem c6_witness :
    (analyze snapTtftHigh (some (List.replicate 5 snapTtftLow))).any
      (fun r => r.severity == "warning" && r.title == "TTFT trending upward") =
      true :=
  c6_amended_ttft_trend_warning snapTtftHigh (List.replicate 5 snapTtftLow)
    (by decide)
    (by norm_num [oldThirdAvg, snapTtftLow, snapZero, List.replicate])
    (by norm_num [oldThirdAvg, snapTtftLow, snapTtftHigh, snapZero, List.replicate])

/-- Claim C9: on the snapshot with avg_batch_size=15, max_batch_size=16,
requests_waiting=5 and every other metric field zero, advise returns
exactly one suggestion, with priority 1, flag --max-num-seqs and an
action that increases the concurrency cap (it starts with "Increase");
and analyze returns exactly one recommendation, with severity "warning"
and category "batching". -/
theorem c9_example_snapshot :
    (advise snapBatchFull).map (fun s => (s.priority, s.flag)) =
      [(1, "--max-num-seqs")] ∧
    (advise snapBatchFull).map
      (fun s => pyStartsWith s.suggested_action.toList "Increase".toList) =
      [true] ∧
    (analyze snapBatchFull none).map (fun r => (r.severity, r.category)) =
      [("warning", "batching")] := by
  refine ⟨?_, ?_, ?_⟩
  · norm_num [advise, adviseBatchSize, adviseCacheConfig, adviseGpuMemory,
      adviseQuantization, advisePrefixCaching, isortK, insertK,
      snapBatchFull, snapZero]
  · norm_num [advise, adviseBatchSize, adviseCacheConfig, adviseGpuMemory,
      adviseQuantization, advisePrefixCaching, isortK, insertK,
      snapBatchFull, snapZero]
    decide
  · norm_num [analyze, analyzeRaw, checkBatchUtilization, checkKvCachePressure,
      checkQueueDepth, checkTtftLatency, checkTbtLatency,
      checkGpuUnderutilization, checkCostEfficiency, checkLatencyTrend,
      isortK, insertK, severityRank, snapBatchFull, snapZero]

/-! ### Concrete histogram evaluations shared by the C5/C10 theorems -/

theorem famGet_famsNeg : famGet famsNeg "m" = some famNeg := by decide

theorem famGet_famsMono : famGet famsMono "m" = some famMono := by decide

theorem scanHist_famNeg :
    scanHist famNeg.samples = ([((-1 : ℚ), 10)], some 10) := by decide

theorem scanHist_famMono :
    scanHist famMono.samples = ([((1 : ℚ), 5), ((2 : ℚ), 10)], some 10) := by
  decide

set_option maxHeartbeats 1000000 in
theorem ghpNegTenth :
    getHistogramPercentile famsNeg "m" (1 / 10) = some (-(1 / 10)) := by
  simp only [getHistogramPercentile, famGet_famsNeg, scanHist_famNeg]
  rw [if_neg (by norm_num)]
  simp only [isortK, insertK, bucketQuantile, interpWalk]
  rw [if_pos (by norm_num)]
  norm_num [max_def]

set_option maxHeartbeats 1000000 in
theorem ghpNegNine :
    getHistogramPercentile famsNeg "m" (9 / 10) = some (-(9 / 10)) := by
  simp only [getHistogramPercentile, famGet_famsNeg, scanHist_famNeg]
  rw [if_neg (by norm_num)]
  simp only [isortK, insertK, bucketQuantile, interpWalk]
  rw [if_pos (by norm_num)]
  norm_num [max_def]

set_option maxHeartbeats 1000000 in
theorem ghpMonoHalf :
    getHistogramPercentile famsMono "m" (1 / 2) = some 1 := by
  simp only [getHistogramPercentile, famGet_famsMono, scanHist_famMono]
  rw [if_neg (not_or.mpr ⟨by simp, by norm_num⟩)]
  simp only [isortK, insertK]
  rw [if_neg (by norm_num)]
  simp only [bucketQuantile, interpWalk]
  rw [if_pos (by norm_num)]
  norm_num [max_def]

set_option maxHeartbeats 1000000 in
theorem ghpMonoNine :
    getHistogramPercentile famsMono "m" (9 / 10) = some (9 / 5) := by
  simp only [getHistogramPercentile, famGet_famsMono, scanHist_famMono]
  rw [if_neg (not_or.mpr ⟨by simp, by norm_num⟩)]
  simp only [isortK, insertK]
  rw [if_neg (by norm_num)]
  simp only [bucketQuantile, interpWalk]
  rw [if_neg (by norm_num), if_pos (by norm_num)]
  norm_num [max_def]

/-- Claim C5 (counterexample): the family famNeg has (trivially) monotone
non-decreasing bucket cumulative counts, yet its percentile estimate
strictly decreases from p = 1/10 to p = 9/10, because the interpolation
starts from the hard-coded previous bound 0 which lies above the negative
bucket boundary -1. -/
theorem c5_counterexample :
    List.Pairwise (fun x y : ℚ × ℚ => x.2 ≤ y.2)
      (isortK Prod.fst (scanHist famNeg.samples).1) ∧
    getHistogramPercentile famsNeg "m" (1 / 10) = some (-(1 / 10)) ∧
    getHistogramPercentile famsNeg "m" (9 / 10) = some (-(9 / 10)) ∧
    ¬ ((-(1 / 10) : ℚ) ≤ -(9 / 10)) := by
  refine ⟨?_, ghpNegTenth, ghpNegNine, by norm_num⟩
  rw [scanHist_famNeg]
  norm_num [isortK, insertK]

/-- Claim C5 (amended): for a located histogram family whose finite
bucket boundaries are all non-negative and whose resolved total count is
positive (the two conditions the counterexample shows are needed), with
monotone non-decreasing cumulative counts, the percentile estimate is
non-decreasing in the percentile over [0, 1]. -/
theorem c5_amended_percentile_monotone
    (families : FamilyMap) (name : String) (fam : MetricFamily)
    (p1 p2 v1 v2 T : ℚ)
    (hfam : famGet families name = some fam)
    (hT : (scanHist fam.samples).2 = some T)
    (hTpos : 0 < T)
    (hcounts : List.Pairwise (fun x y : ℚ × ℚ => x.2 ≤ y.2)
      (isortK Prod.fst (scanHist fam.samples).1))
    (hbounds : ∀ x ∈ isortK Prod.fst (scanHist fam.samples).1, (0 : ℚ) ≤ x.1)
    (hp1 : 0 ≤ p1) (hp12 : p1 ≤ p2) (hp2 : p2 ≤ 1)
    (h1 : getHistogramPercentile families name p1 = some v1)
    (h2 : getHistogramPercentile families name p2 = some v2) :
    v1 ≤ v2 := by
  rcases hscan : scanHist fam.samples with ⟨buckets, totalOpt⟩
  have hT2 : totalOpt = some T := by rw [hscan] at hT; exact hT
  subst hT2
  rw [hscan] at hbounds
  simp only [getHistogramPercentile, hfam, hscan] at h1 h2
  by_cases hcond : buckets = [] ∨ T = 0
  · rw [if_pos hcond] at h1
    exact absurd h1 (by simp)
  · rw [if_neg hcond] at h1 h2
    have hbne : buckets ≠ [] := fun h0 => hcond (Or.inl h0)
    have hsne : isortK Prod.fst buckets ≠ [] := by
      intro h0
      have hlen := (isortK_perm Prod.fst buckets).length_eq
      rw [h0] at hlen
      exact hbne (List.length_eq_zero.mp hlen.symm)
    obtain ⟨z, hz⟩ : ∃ z, (isortK Prod.fst buckets).getLast? = some z := by
      cases hlast : (isortK Prod.fst buckets).getLast? with
      | none => exact absurd (List.getLast?_eq_none_iff.mp hlast) hsne
      | some z => exact ⟨z, rfl⟩
    rw [bucketQuantile_eq_walkFull _ _ z hz] at h1 h2
    injection h1 with h1e
    injection h2 with h2e
    rw [← h1e, ← h2e]
    have hpw := pairwise_isortK Prod.fst buckets
    have hfb : ∀ x ∈ isortK Prod.fst buckets, x.1 ≤ z.1 :=
      pairwiseFstLeGetLast _ z hz hpw
    have h0fb : (0 : ℚ) ≤ z.1 := hbounds z (getLastMem _ z hz)
    exact walkFull_mono (isortK Prod.fst buckets) 0 0 (p1 * T) (p2 * T) z.1
      (mul_le_mul_of_nonneg_right hp12 hTpos.le) hbounds hpw hfb h0fb

/-- Witness for the amended C5 on the famMono histogram: the estimate at
p = 1/2 is 1, at p = 9/10 it is 9/5, and the theorem yields 1 <= 9/5. -/
theorem c5_witness :
    getHistogramPercentile famsMono "m" (1 / 2) = some 1 ∧
    getHistogramPercentile famsMono "m" (9 / 10) = some (9 / 5) ∧
    (1 : ℚ) ≤ 9 / 5 :=
  ⟨ghpMonoHalf, ghpMonoNine,
    c5_amended_percentile_monotone famsMono "m" famMono (1 / 2) (9 / 10) 1
      (9 / 5) 10 famGet_famsMono
      (by rw [scanHist_famMono])
      (by norm_num)
      (by rw [scanHist_famMono]; norm_num [isortK, insertK])
      (by rw [scanHist_famMono]; norm_num [isortK, insertK])
      (by norm_num) (by norm_num) (by norm_num)
      ghpMonoHalf ghpMonoNine⟩

/-- Claim C10 (counterexample): on famNeg the estimate at p = 1/10 is
-1/10, which is strictly greater than the largest (and only) finite
bucket boundary -1, because interpolation starts from the hard-coded
previous bound 0. -/
theorem c10_counterexample :
    getHistogramPercentile famsNeg "m" (1 / 10) = some (-(1 / 10)) ∧
    ((scanHist famNeg.samples).1.map Prod.fst).maximum = ((-1 : ℚ) : WithBot ℚ) ∧
    ¬ ((-(1 / 10) : ℚ) ≤ -1) := by
  refine ⟨ghpNegTenth, ?_, by norm_num⟩
  rw [scanHist_famNeg]
  simp [List.maximum_singleton]

/-- Claim C10 (amended): whenever the estimator returns a value for a
family whose finite bucket boundaries are all non-negative (the condition
the counterexample shows is needed), that value is at most the largest
finite bucket boundary. -/
theorem c10_amended_percentile_le_max_bound
    (families : FamilyMap) (name : String) (fam : MetricFamily)
    (p v T m : ℚ)
    (hfam : famGet families name = some fam)
    (hT : (scanHist fam.samples).2 = some T)
    (hbounds : ∀ x ∈ isortK Prod.fst (scanHist fam.samples).1, (0 : ℚ) ≤ x.1)
    (hmax : ((scanHist fam.samples).1.map Prod.fst).maximum = (m : WithBot ℚ))
    (h : getHistogramPercentile families name p = some v) :
    v ≤ m := by
  rcases hscan : scanHist fam.samples with ⟨buckets, totalOpt⟩
  have hT2 : totalOpt = some T := by rw [hscan] at hT; exact hT
  subst hT2
  rw [hscan] at hbounds hmax
  simp only [getHistogramPercentile, hfam, hscan] at h
  by_cases hcond : buckets = [] ∨ T = 0
  · rw [if_pos hcond] at h
    exact absurd h (by simp)
  · rw [if_neg hcond] at h
    have hbne : buckets ≠ [] := fun h0 => hcond (Or.inl h0)
    have hsne : isortK Prod.fst buckets ≠ [] := by
      intro h0
      have hlen := (isortK_perm Prod.fst buckets).length_eq
      rw [h0] at hlen
      exact hbne (List.length_eq_zero.mp hlen.symm)
    obtain ⟨z, hz⟩ : ∃ z, (isortK Prod.fst buckets).getLast? = some z := by
      cases hlast : (isortK Prod.fst buckets).getLast? with
      | none => exact absurd (List.getLast?_eq_none_iff.mp hlast) hsne
      | some z => exact ⟨z, rfl⟩
    rw [bucketQuantile_eq_walkFull _ _ z hz] at h
    injection h with he
    rw [← he]
    have hpw := pairwise_isortK Prod.fst buckets
    have hfb : ∀ x ∈ isortK Prod.fst buckets, x.1 ≤ z.1 :=
      pairwiseFstLeGetLast _ z hz hpw
    have h0fb : (0 : ℚ) ≤ z.1 := hbounds z (getLastMem _ z hz)
    have hub : walkFull (p * T) 0 0 (isortK Prod.fst buckets) z.1 ≤ z.1 :=
      walkFull_ub (isortK Prod.fst buckets) 0 0 (p * T) z.1 hbounds hpw hfb h0fb
    have hzb : z ∈ buckets := (mem_isortK Prod.fst buckets z).mp (getLastMem _ z hz)
    have hzm : z.1 ≤ m :=
      List.le_maximum_of_mem (List.mem_map_of_mem Prod.fst hzb) hmax
    exact le_trans hub hzm

/-- Witness for the amended C10 on the famMono histogram: the estimate at
p = 9/10 is 9/5, bounded by the largest boundary 2. -/
theorem c10_witness :
    getHistogramPercentile famsMono "m" (9 / 10) = some (9 / 5) ∧
    (9 / 5 : ℚ) ≤ 2 :=
  ⟨ghpMonoNine,
    c10_amended_percentile_le_max_bound famsMono "m" famMono (9 / 10) (9 / 5)
      10 2 famGet_famsMono
      (by rw [scanHist_famMono])
      (by rw [scanHist_famMono]; norm_num [isortK, insertK])
      (by rw [scanHist_famMono]; decide)
      ghpMonoNine⟩

end Throtl
